import Mathlib

/-!
Verification of the PROF_TO_BOT recording/transcription/summarization
pipeline (`src/app.py`) against its natural-language specification.

The Python source is shallowly embedded: each method becomes a pure Lean
function on an explicit state, the concurrent capture producer becomes a
labelled transition system over schedules of events, and Python exceptions
become `Except` results.
-/

namespace ProfToBot

/-! ## AudioRecorder (src/app.py lines 15-54)

`AudioRecorder` holds `self.recording : bool` and `self.frames : list`.
`start_recording` sets the flag, clears the frames and spawns a daemon
thread running `_record`; `stop_recording` clears the flag and returns at
once.  `_record` opens an `sd.InputStream` and sleeps in one-second steps
while `self.recording` holds; the stream's callback `_audio_callback`
appends every delivered chunk to `self.frames` for as long as the stream
is open.  A fatal stream error inside `_record` is caught and only logged.

The state below records the flag, the frame buffer (chunks named by `Nat`),
how many spawned producer threads have not yet opened their stream, how
many streams are currently open, and how many capture errors `_record` has
logged. -/

/-- Error taxonomy the specification assigns to the recorder interface.
The source never raises any of these; the type gives the exception
vocabulary in which the spec's claims are stated. -/
inductive RecorderError where
  | AlreadyRecording
  | NotRecording
  | CaptureError
  deriving DecidableEq, Repr

structure RecorderState where
  recording : Bool
  frames : List Nat
  startingProducers : Nat
  openStreams : Nat
  capErrorsLogged : Nat
  deriving DecidableEq, Repr

/-- Fresh `AudioRecorder()`: flag down, empty buffer, no producer. -/
def initState : RecorderState :=
  { recording := false, frames := [], startingProducers := 0,
    openStreams := 0, capErrorsLogged := 0 }

/-- `AudioRecorder.start_recording` (lines 24-33): unconditionally sets
`self.recording = True`, clears `self.frames`, and spawns a `_record`
thread.  There is no state check, so no error path is ever taken; the
`Except` result is the embedding of a Python method that could raise. -/
def start_recording (s : RecorderState) : Except RecorderError RecorderState :=
  .ok { s with recording := true, frames := [],
               startingProducers := s.startingProducers + 1 }

/-- `AudioRecorder.stop_recording` (lines 35-38): sets
`self.recording = False` and returns immediately; it neither checks the
current state nor joins the capture thread. -/
def stop_recording (s : RecorderState) : Except RecorderError RecorderState :=
  .ok { s with recording := false }

/-- Events of the recorder's concurrent execution: the UI thread's two
calls, and the capture producer's internal steps (`_record`'s stream open
succeeding or raising, the callback delivering a chunk, and the polling
loop observing `recording = False` and closing the stream). -/
inductive RecEvent where
  | callStart
  | callStop
  | openStream
  | openStreamFails
  | deliverChunk (c : Nat)
  | pollSeesStopped
  deriving DecidableEq, Repr

/-- One step of the interleaved execution; `none` means the event is not
enabled in this state (e.g. a chunk cannot be delivered without an open
stream).  `deliverChunk` is guarded only by the stream being open — the
callback (lines 50-54) appends regardless of `self.recording`, and the
stream closes only when the polling loop wakes up and sees the flag down. -/
def recStep (s : RecorderState) (e : RecEvent) : Option RecorderState :=
  match e with
  | .callStart =>
      match start_recording s with
      | .ok s' => some s'
      | .error _ => none
  | .callStop =>
      match stop_recording s with
      | .ok s' => some s'
      | .error _ => none
  | .openStream =>
      if 0 < s.startingProducers then
        some { s with startingProducers := s.startingProducers - 1,
                      openStreams := s.openStreams + 1 }
      else none
  | .openStreamFails =>
      if 0 < s.startingProducers then
        some { s with startingProducers := s.startingProducers - 1,
                      capErrorsLogged := s.capErrorsLogged + 1 }
      else none
  | .deliverChunk c =>
      if 0 < s.openStreams then
        some { s with frames := s.frames ++ [c] }
      else none
  | .pollSeesStopped =>
      if 0 < s.openStreams ∧ s.recording = false then
        some { s with openStreams := s.openStreams - 1 }
      else none

/-- Run a schedule of events from a state. -/
def recRun (s : RecorderState) (es : List RecEvent) : Option RecorderState :=
  es.foldl (fun acc e => acc.bind (fun st => recStep st e)) (some s)

end ProfToBot

namespace ProfToBot

/-- C1: the claim says that once `stop()` returns the buffer is immutable —
no frame is appended after `stop()` returns.  The code violates this: this
theorem exhibits the schedule start; stream opens; chunk 0 delivered;
`stop()` returns; chunk 1 delivered; producer exits.  After `stop()` has
returned the state still has an open stream, and the later delivery grows
the buffer from `[0]` to `[0, 1]`. -/
theorem stop_does_not_freeze_buffer :
    recRun initState
      [.callStart, .openStream, .deliverChunk 0, .callStop] =
      some { recording := false, frames := [0], startingProducers := 0,
             openStreams := 1, capErrorsLogged := 0 } ∧
    recRun initState
      [.callStart, .openStream, .deliverChunk 0, .callStop,
       .deliverChunk 1, .pollSeesStopped] =
      some { recording := false, frames := [0, 1], startingProducers := 0,
             openStreams := 0, capErrorsLogged := 0 } := by
  constructor <;> rfl

/-- C2 counterexample: the claim says `start()` on a `Recording` session
fails with `AlreadyRecording` and leaves the buffer unchanged.  In the
code `start_recording` performs no state check: from a recording state
with a non-empty buffer it returns success, not the error, and discards
the buffered frames. -/
theorem start_while_recording_succeeds :
    start_recording
      { recording := true, frames := [7], startingProducers := 0,
        openStreams := 1, capErrorsLogged := 0 } =
      .ok { recording := true, frames := [], startingProducers := 1,
            openStreams := 1, capErrorsLogged := 0 } ∧
    (Except.ok { recording := true, frames := [], startingProducers := 1,
                 openStreams := 1, capErrorsLogged := 0 } :
        Except RecorderError RecorderState) ≠
      .error .AlreadyRecording ∧
    ([] : List Nat) ≠ [7] := by
  refine ⟨rfl, ?_, by decide⟩
  intro h
  exact nomatch h

/-- C2 amended: `start()` never fails and never checks the state — from
any state it clears the buffer, raises the recording flag and spawns one
more capture producer. -/
theorem start_recording_total (s : RecorderState) :
    start_recording s =
      .ok { s with recording := true, frames := [],
                   startingProducers := s.startingProducers + 1 } := rfl

/-- C3 counterexample: the claim says `stop()` on an `Idle` or
already-stopped session fails with `NotRecording`.  In the code
`stop_recording` performs no state check: from the initial (idle) state,
and from a stopped state with saved frames, it returns success, not the
error. -/
theorem stop_while_idle_succeeds :
    stop_recording initState = .ok initState ∧
    stop_recording
      { recording := false, frames := [3], startingProducers := 0,
        openStreams := 0, capErrorsLogged := 0 } =
      .ok { recording := false, frames := [3], startingProducers := 0,
            openStreams := 0, capErrorsLogged := 0 } ∧
    (Except.ok initState : Except RecorderError RecorderState) ≠
      .error .NotRecording := by
  refine ⟨rfl, rfl, ?_⟩
  intro h
  exact nomatch h

/-- C3 amended: `stop()` never fails — from any state, recording or not,
it lowers the recording flag and returns. -/
theorem stop_recording_total (s : RecorderState) :
    stop_recording s = .ok { s with recording := false } := rfl

/-- C4: the claim says a fatal stream-open error fails the `start()` call
with `CaptureError` and leaves the session `Idle`.  The code disagrees:
`start_recording` has already returned success before `_record` runs, and
when the stream open raises, `_record` catches and logs the error in the
daemon thread, leaving `self.recording = True`.  The schedule start; stream
open fails shows the final state: recording flag still up, one error only
logged, and `start_recording` itself returned `.ok`. -/
theorem capture_error_only_logged :
    recRun initState [.callStart, .openStreamFails] =
      some { recording := true, frames := [], startingProducers := 0,
             openStreams := 0, capErrorsLogged := 1 } ∧
    start_recording initState =
      .ok { recording := true, frames := [], startingProducers := 1,
            openStreams := 0, capErrorsLogged := 0 } := by
  constructor <;> rfl

end ProfToBot

namespace ProfToBot

/-! ## GroqAPI.summarize_text (src/app.py lines 70-109)

The method builds headers and a JSON payload, issues one
`requests.post` to `self.base_url + "/v1/chat/completions"`, calls
`response.raise_for_status()` (which raises `requests.HTTPError` exactly
when `400 <= status < 600`), and returns
`response.json()["choices"][0]["message"]["content"]` — a lookup that
raises `KeyError` when the field chain is missing.  Transport failures
raise a `requests` connection error.  The surrounding `try/except` logs
and re-raises, so the caller sees the original exception. -/

/-- The exceptions `summarize_text` can let escape: `requests.HTTPError`
carrying the response status, `KeyError` from the missing completion
field, and a transport-level connection error. -/
inductive SummarizeError where
  | httpError (status : Nat)
  | keyError
  | networkError
  deriving DecidableEq, Repr

/-- An HTTP response as `summarize_text` consumes it: the status code and
`json()["choices"][0]["message"]["content"]` when that field chain is
present. -/
structure HttpResponse where
  status : Nat
  completionContent : Option String
  deriving DecidableEq, Repr

/-- `response.raise_for_status()`: raises `HTTPError` exactly for
4xx/5xx status codes. -/
def raise_for_status (r : HttpResponse) : Except SummarizeError Unit :=
  if 400 ≤ r.status ∧ r.status < 600 then .error (.httpError r.status)
  else .ok ()

/-- Python truthiness-free status test used only to state claims about
status classes. -/
def is2xx (status : Nat) : Bool :=
  200 ≤ status && status < 300

/-- `GroqAPI.summarize_text`, response side (lines 99-109): the transport
either fails (connection error) or yields a response; `raise_for_status`
is consulted, then the completion field is extracted. -/
def summarize_text (transport : Except Unit HttpResponse) :
    Except SummarizeError String :=
  match transport with
  | .error _ => .error .networkError
  | .ok r =>
      match raise_for_status r with
      | .error e => .error e
      | .ok _ =>
          match r.completionContent with
          | some c => .ok c
          | none => .error .keyError

/-- A chat message of the request payload. -/
structure ChatMessage where
  role : String
  content : String
  deriving DecidableEq, Repr

/-- The JSON payload of lines 85-97. -/
structure ChatPayload where
  model : String
  messages : List ChatMessage
  temperature : ℚ
  max_tokens : Nat
  deriving DecidableEq, Repr

/-- The single POST request of lines 99-103. -/
structure PostRequest where
  url : String
  headers : List (String × String)
  payload : ChatPayload
  deriving DecidableEq, Repr

/-- `self.base_url` (line 75). -/
def base_url : String := "https://api.groq.com/openai"

/-- The fixed four-section instruction template: the user message's
f-string (lines 89-93) up to the `{text}` interpolation point, with the
source's exact newlines and 21-space continuation indents. -/
def fourSectionTemplate : String :=
  "Please provide a concise summary of the following text: -MAIN TOPICS AND KEY POINTS\n                     IMPORTANT CONCEPTS AND DEFINITIONS\n                     -ANY SIGNIFICANT EXAMPLES MENTIONED\n                     -KEY TAKEAWAYS\n                     HERE IS THE TEXT"

/-- `GroqAPI.summarize_text`, request side (lines 80-103): the headers,
payload and URL of the one POST it issues for the given input text. -/
def buildRequest (api_key text : String) : PostRequest :=
  { url := base_url ++ "/v1/chat/completions",
    headers := [("Authorization", "Bearer " ++ api_key),
                ("Content-Type", "application/json")],
    payload :=
      { model := "mixtral-8x7b-32768",
        messages :=
          [{ role := "system",
             content := "You are a helpful assistant that creates concise summaries." },
           { role := "user",
             content := "Please provide a concise summary of the following text: -MAIN TOPICS AND KEY POINTS\n                     IMPORTANT CONCEPTS AND DEFINITIONS\n                     -ANY SIGNIFICANT EXAMPLES MENTIONED\n                     -KEY TAKEAWAYS\n                     HERE IS THE TEXT" ++ text }],
        temperature := 7 / 10,
        max_tokens := 500 } }

/-- The HTTP requests one `summarize_text` call issues: exactly the one
`requests.post` of line 99. -/
def requestsSent (api_key text : String) : List PostRequest :=
  [buildRequest api_key text]

end ProfToBot

namespace ProfToBot

/-- C6 counterexample: the claim says `summarize` fails with `ApiError` on
any non-2xx response, but `raise_for_status` only raises for 4xx/5xx: a
status-301 response whose body carries the completion field is returned
as a success even though 301 is not 2xx. -/
theorem non2xx_response_can_succeed :
    is2xx 301 = false ∧
    summarize_text (.ok { status := 301, completionContent := some "s" }) =
      .ok "s" :=
  ⟨rfl, rfl⟩

/-- C6 amended: `summarize_text` fails with `HTTPError` carrying status
401 on a 401 response, with `HTTPError` carrying the status on any other
4xx/5xx response, with `KeyError` on a non-error response missing the
completion field, and with a network error on transport failure; the four
failure kinds are pairwise distinguishable.  Status codes outside 400-599
are not rejected by `raise_for_status`. -/
theorem summarize_text_error_classification (r : HttpResponse) :
    (r.status = 401 →
      summarize_text (.ok r) = .error (.httpError 401)) ∧
    (400 ≤ r.status → r.status < 600 →
      summarize_text (.ok r) = .error (.httpError r.status)) ∧
    (is2xx r.status = true → r.completionContent = none →
      summarize_text (.ok r) = .error .keyError) ∧
    (∀ u : Unit, summarize_text (.error u) = .error .networkError) ∧
    ((SummarizeError.httpError 401 ≠ .keyError) ∧
     (SummarizeError.httpError 401 ≠ .networkError) ∧
     (SummarizeError.keyError ≠ .networkError) ∧
     ∀ st : Nat, st ≠ 401 → SummarizeError.httpError st ≠ .httpError 401) := by
  obtain ⟨st, cc⟩ := r
  refine ⟨?_, ?_, ?_, fun _ => rfl, ?_⟩
  · intro h
    subst h
    rfl
  · intro h1 h2
    simp only [summarize_text, raise_for_status]
    rw [if_pos ⟨h1, h2⟩]
  · intro h hcc
    simp only [is2xx, Bool.and_eq_true, decide_eq_true_eq] at h
    cases cc with
    | some c => simp at hcc
    | none =>
        simp only [summarize_text, raise_for_status]
        rw [if_neg (by omega)]
  · refine ⟨?_, ?_, ?_, ?_⟩
    · intro h
      exact nomatch h
    · intro h
      exact nomatch h
    · intro h
      exact nomatch h
    · intro st' hst hEq
      exact hst (by injection hEq)

/-- Witness for C6's amended classification at concrete responses. -/
theorem summarize_text_error_classification_witness :
    summarize_text (.ok { status := 401, completionContent := some "x" }) =
      .error (.httpError 401) ∧
    summarize_text (.ok { status := 500, completionContent := none }) =
      .error (.httpError 500) ∧
    summarize_text (.ok { status := 200, completionContent := none }) =
      .error .keyError ∧
    summarize_text (.error ()) = .error .networkError := by
  refine ⟨?_, ?_, ?_, ?_⟩
  · exact (summarize_text_error_classification
      { status := 401, completionContent := some "x" }).1 rfl
  · exact (summarize_text_error_classification
      { status := 500, completionContent := none }).2.1 (by decide) (by decide)
  · exact (summarize_text_error_classification
      { status := 200, completionContent := none }).2.2.1 (by decide) rfl
  · exact (summarize_text_error_classification
      { status := 200, completionContent := none }).2.2.2.1 ()

/-- C7: every `summarize_text` call issues exactly one POST, to the fixed
base URL's `/v1/chat/completions` path, with the bearer-token and JSON
content-type headers, a payload holding the system message, temperature
0.7 and max_tokens 500, and a user message whose content is the fixed
four-section template concatenated with the input text, verbatim. -/
theorem summarize_request_shape (api_key text : String) :
    requestsSent api_key text = [buildRequest api_key text] ∧
    (requestsSent api_key text).length = 1 ∧
    (buildRequest api_key text).url =
      "https://api.groq.com/openai" ++ "/v1/chat/completions" ∧
    (buildRequest api_key text).headers =
      [("Authorization", "Bearer " ++ api_key),
       ("Content-Type", "application/json")] ∧
    (buildRequest api_key text).payload.messages =
      [{ role := "system",
         content := "You are a helpful assistant that creates concise summaries." },
       { role := "user", content := fourSectionTemplate ++ text }] ∧
    (buildRequest api_key text).payload.temperature = 7 / 10 ∧
    (buildRequest api_key text).payload.max_tokens = 500 :=
  ⟨rfl, rfl, rfl, rfl, rfl, rfl, rfl⟩

end ProfToBot

namespace ProfToBot

/-! ## transcribe_audio (src/app.py lines 111-120)

The whole body — the `whisper` import, model load, `model.transcribe`
call and the `result["text"]` lookup — sits inside one `try`; every
exception is caught, logged with `logger.error`, and turned into
`return None`.  The engine is embedded as a function from the audio file
path to either its text or the message of the exception it raises. -/

/-- `transcribe_audio`: returns the engine's text on success, and on any
engine exception returns `none` together with the logged message.  The
second component is the list of `logger.error` lines emitted by the call;
the total (exception-free) Lean type is the embedding of "never raises to
the caller". -/
def transcribe_audio (engine : String → Except String String)
    (audio_file : String) : Option String × List String :=
  match engine audio_file with
  | .ok text => (some text, [])
  | .error e => (none, ["Error during transcription: " ++ e])

/-! ## save_summary (src/app.py lines 122-132)

Opens `class_notes.txt` in append mode (creating it if absent — an
absent store is the `none` case below) and writes
`"\n--- Summary from {timestamp} ---\n"` followed by `summary + "\n"`. -/

/-- Zero-pad to two digits, as `strftime`'s `%m`/`%d`/`%H`/`%M`/`%S` do. -/
def pad2 (n : Nat) : String :=
  if n < 10 then "0" ++ toString n else toString n

/-- Zero-pad to four digits, as `strftime`'s `%Y` does for common years. -/
def pad4 (n : Nat) : String :=
  if n < 10 then "000" ++ toString n
  else if n < 100 then "00" ++ toString n
  else if n < 1000 then "0" ++ toString n
  else toString n

/-- `datetime.datetime.now().strftime("%Y-%m-%d %H:%M:%S")` applied to
the clock's components (line 125). -/
def strftime_timestamp (y mo d h mi s : Nat) : String :=
  pad4 y ++ "-" ++ pad2 mo ++ "-" ++ pad2 d ++ " " ++
    pad2 h ++ ":" ++ pad2 mi ++ ":" ++ pad2 s

/-- The block one `save_summary` call appends (the two `file.write`
calls of lines 127-128). -/
def summaryBlock (ts summary : String) : String :=
  "\n--- Summary from " ++ ts ++ " ---\n" ++ (summary ++ "\n")

/-- `save_summary`: the notes store after appending; `none` models an
absent file, which append mode creates empty. -/
def save_summary (store : Option String) (ts summary : String) : String :=
  (store.getD "") ++ ("\n--- Summary from " ++ ts ++ " ---\n") ++
    (summary ++ "\n")

/-! ## The "Transcribe and Summarize" orchestration (src/app.py lines 196-221)

`main` runs `transcription = transcribe_audio(last_file)`, branches on
`if transcription:` (Python truthiness: `None` and `""` are both falsy),
and in the truthy branch calls `summarize_text` inside a `try` — on
success it shows the summary and calls `save_summary`, on exception it
shows an error and writes nothing; in the falsy branch it shows the
transcription-failure error. -/

/-- What one press of the button produces. -/
inductive PipelineResult where
  | savedSummary (summary : String)
  | summarizeFailed (e : SummarizeError)
  | transcriptionFailed
  deriving DecidableEq, Repr

/-- Observable effects of one orchestration run. -/
structure PipelineRun where
  result : PipelineResult
  summarizerCalled : Bool
  notesWritten : Bool
  deriving DecidableEq, Repr

/-- The orchestration of lines 201-221, parameterized by the transcription
outcome and by the summarizer's behaviour.  The two short-circuit cases
(`none` and `some ""`) are exactly the falsy values of `if transcription:`
for an `Optional[str]`. -/
def transcribe_and_summarize (transcription : Option String)
    (summarizer : String → Except SummarizeError String) : PipelineRun :=
  match transcription with
  | none =>
      { result := .transcriptionFailed, summarizerCalled := false,
        notesWritten := false }
  | some t =>
      if t == "" then
        { result := .transcriptionFailed, summarizerCalled := false,
          notesWritten := false }
      else
        match summarizer t with
        | .ok summary =>
            { result := .savedSummary summary, summarizerCalled := true,
              notesWritten := true }
        | .error e =>
            { result := .summarizeFailed e, summarizerCalled := true,
              notesWritten := false }

end ProfToBot

namespace ProfToBot

/-- C5: the orchestration short-circuits on transcription absence — with
an absent transcript the summarizer is never invoked, no notes entry is
written, and the caller sees the transcription-failure signal; and when
the summarizer fails on a (non-empty) transcript, the failure surfaces
with no notes write. -/
theorem orchestration_short_circuits
    (summarizer : String → Except SummarizeError String) :
    transcribe_and_summarize none summarizer =
      { result := .transcriptionFailed, summarizerCalled := false,
        notesWritten := false } ∧
    (∀ t e, t ≠ "" → summarizer t = .error e →
      transcribe_and_summarize (some t) summarizer =
        { result := .summarizeFailed e, summarizerCalled := true,
          notesWritten := false }) := by
  refine ⟨rfl, ?_⟩
  intro t e ht hs
  simp only [transcribe_and_summarize]
  rw [if_neg (by simpa using ht)]
  rw [hs]

/-- Witness for C5 at a concrete transcript and failing summarizer. -/
theorem orchestration_short_circuits_witness :
    transcribe_and_summarize none (fun s => .ok s) =
      { result := .transcriptionFailed, summarizerCalled := false,
        notesWritten := false } ∧
    transcribe_and_summarize (some "hello")
        (fun _ => .error .networkError) =
      { result := .summarizeFailed .networkError, summarizerCalled := true,
        notesWritten := false } := by
  refine ⟨?_, ?_⟩
  · exact (orchestration_short_circuits (fun s => .ok s)).1
  · exact (orchestration_short_circuits (fun _ => .error .networkError)).2
      "hello" .networkError (by decide) rfl

/-- C8: `transcribe_audio` never raises — it is total over every engine
outcome; when the engine succeeds it returns the engine's text with no
error logged, and when the engine fails it returns `none` and logs the
cause. -/
theorem transcribe_audio_never_raises
    (engine : String → Except String String) (audio_file : String) :
    (∀ t, engine audio_file = .ok t →
      transcribe_audio engine audio_file = (some t, [])) ∧
    (∀ e, engine audio_file = .error e →
      transcribe_audio engine audio_file =
        (none, ["Error during transcription: " ++ e])) := by
  constructor
  · intro t h
    simp [transcribe_audio, h]
  · intro e h
    simp [transcribe_audio, h]

/-- Witness for C8 with a succeeding and a failing engine. -/
theorem transcribe_audio_never_raises_witness :
    transcribe_audio (fun _ => .ok "hello world") "rec.wav" =
      (some "hello world", []) ∧
    transcribe_audio (fun _ => .error "corrupt audio") "rec.wav" =
      (none, ["Error during transcription: corrupt audio"]) := by
  refine ⟨?_, ?_⟩
  · exact (transcribe_audio_never_raises (fun _ => .ok "hello world")
      "rec.wav").1 "hello world" rfl
  · exact (transcribe_audio_never_raises (fun _ => .error "corrupt audio")
      "rec.wav").2 "corrupt audio" rfl

/-- C9: `save_summary` appends exactly the literal block
`"\n--- Summary from <YYYY-MM-DD HH:MM:SS> ---\n" ++ summary ++ "\n"` to
the end of the store, creating the store when absent; two successive
appends yield the two blocks in order; the prior content is a prefix of
the result (byte-identical up to the insertion point); and the timestamp
renders in `YYYY-MM-DD HH:MM:SS` shape. -/
theorem save_summary_appends_block
    (prior summary : String) (y mo d h mi s : Nat) (ts2 sum2 : String) :
    save_summary (some prior) (strftime_timestamp y mo d h mi s) summary =
      prior ++ summaryBlock (strftime_timestamp y mo d h mi s) summary ∧
    save_summary none (strftime_timestamp y mo d h mi s) summary =
      summaryBlock (strftime_timestamp y mo d h mi s) summary ∧
    save_summary
        (some (save_summary (some prior)
          (strftime_timestamp y mo d h mi s) summary)) ts2 sum2 =
      prior ++ (summaryBlock (strftime_timestamp y mo d h mi s) summary ++
        summaryBlock ts2 sum2) ∧
    (∃ rest, save_summary (some prior)
        (strftime_timestamp y mo d h mi s) summary = prior ++ rest) ∧
    strftime_timestamp 2024 3 7 9 5 42 = "2024-03-07 09:05:42" := by
  refine ⟨?_, ?_, ?_, ⟨summaryBlock (strftime_timestamp y mo d h mi s)
    summary, ?_⟩, by decide⟩ <;>
    simp [save_summary, summaryBlock, String.append_assoc]

/-- C10: the code branches on the transcript's Python truthiness, so a
successful transcription that is the empty string is treated exactly like
an absent one — the summarizer is not called, nothing is written to the
notes log, and the caller sees the transcription-failure signal. -/
theorem empty_transcript_like_absent
    (summarizer : String → Except SummarizeError String) :
    transcribe_and_summarize (some "") summarizer =
      transcribe_and_summarize none summarizer ∧
    transcribe_and_summarize (some "") summarizer =
      { result := .transcriptionFailed, summarizerCalled := false,
        notesWritten := false } :=
  ⟨rfl, rfl⟩

end ProfToBot
